import Mathlib

/-!
# Verification of the fast-scraper batch fetch service

Shallow embedding of `src/app/main.py` (FastAPI scraper service) and the
relevant part of `src/app/config.py`.

The network, the clock and the random number generator are external to the
program, so they are modelled as oracles passed to the embedded functions:

* `env : Nat → RawOutcome` gives, for each attempt index, the raw outcome of
  the single `client.get` call performed on that attempt (a final HTTP
  response after redirects, a timeout, or some other exception).
* `dur : Nat → Nat` gives the wall-clock duration consumed by each attempt;
  `time.time() - start_time` at a return point inside attempt `k` is the sum
  of the durations of attempts `0..k`.
* `rng : Nat → Nat` determinises `random.choice` over the proxy list: the
  draw before attempt `k` uses `rng k` reduced modulo the pool size.

Each attempt constructs one `httpx.AsyncClient` from a keyword dictionary and
issues exactly one GET request; the embedding records the constructed client
arguments of every attempt so that "network activity" and "number of
attempts" are observable (`scrape_url_run` returns the `FetchResult` together
with the per-attempt list of `ClientArgs`).
-/

namespace FastScraper

/-- Raw outcome of one `client.get(url, headers=headers)` call inside
`scrape_url` (main.py): either a final post-redirect HTTP response, an
`httpx.TimeoutException`, or any other exception (DNS failure, connection
refused, protocol error, ...) carrying its message. -/
inductive RawOutcome where
  | response (status_code : Nat) (body : String)
  | timeout
  | exc (msg : String)
deriving DecidableEq, Repr

/-- The error strings produced by `scrape_url` (main.py). Each constructor
stands for one f-string literal in the source; the parts rendered by the
exception object (external library) are carried as payload:

* `allTimedOut`          — `"All retry attempts timed out"`
* `httpError s`          — `f"HTTP error: {e}"` for an `HTTPStatusError` with
                           response status `s`
* `allHttpErrors s`      — `f"All retry attempts failed with HTTP errors: {e}"`
* `allUnexpected msg`    — `f"All retry attempts failed with unexpected errors: {str(e)}"`
* `unknownRetryFailure`  — `"Unknown failure in retry logic"` -/
inductive FetchError where
  | allTimedOut
  | httpError (status_code : Nat)
  | allHttpErrors (status_code : Nat)
  | allUnexpected (msg : String)
  | unknownRetryFailure
deriving DecidableEq, Repr

/-- The per-URL result dictionary built by `scrape_url` (main.py). Keys that
some branches omit (`status_code`, `content`, `error`) are `Option`s. -/
structure FetchResult where
  url : String
  status_code : Option Nat
  content : Option String
  error : Option FetchError
  elapsed_seconds : Nat
  success : Bool
  proxy_used : String
deriving DecidableEq, Repr

/-- The keyword arguments `client_args` passed to `httpx.AsyncClient` in
`scrape_url` (main.py). `verify : Option Bool` records whether the `verify`
keyword is passed at all: `none` means the key is absent from the dictionary,
so the library default (TLS certificate validation enabled) applies. -/
structure ClientArgs where
  timeout : Nat
  follow_redirects : Bool
  http2 : Bool
  proxy : Option String
  verify : Option Bool
deriving DecidableEq, Repr

/-- The `client_args` dictionary literally as main.py builds it:
`{"timeout": timeout, "follow_redirects": True, "http2": False}`, plus the
`proxy` key exactly when a proxy URL is set. No `verify` key is ever added. -/
def mkClientArgs (timeout : Nat) (proxy_url : Option String) : ClientArgs :=
  { timeout := timeout
    follow_redirects := true
    http2 := false
    proxy := proxy_url
    verify := none }

/-- Request body model `ScrapeRequest` (main.py): a URL list and an advisory
proxy-type string defaulting to `"datacenter"`. -/
structure ScrapeRequest where
  urls : List String
  proxy_type : String
deriving DecidableEq, Repr

/-- The summary dictionary returned by the `/scrape` endpoint (main.py). -/
structure BatchSummary where
  results : List FetchResult
  total : Nat
  successful : Nat
  failed : Nat
  total_time_seconds : Nat
  proxy_type_used : String
deriving DecidableEq, Repr

/-- Embeds `fastapi.HTTPException(status_code=..., detail=...)`. -/
structure HTTPError where
  status_code : Nat
  detail : String
deriving DecidableEq, Repr

/-- Function `get_proxy_list` from main.py: read the comma-separated
`DATACENTER_PROXIES` value (passed here as `proxies_str`), return `[]` when it
is empty, else split on commas, strip whitespace and drop empty entries. -/
def get_proxy_list (proxies_str : String) : List String :=
  if proxies_str = "" then []
  else ((proxies_str.splitOn ",").map String.trim).filter (fun p => p ≠ "")

/-- Function `get_proxy_list` from config.py: returns the configured datacenter
proxies regardless of the requested `proxy_type` (an unsupported type is only
logged). -/
def Config.get_proxy_list (_proxy_type : String) (datacenter_proxies : List String) :
    List String :=
  datacenter_proxies

/-- Embeds `random.choice(proxies)`: a uniformly random element, determinised by the
oracle draw `r`. Only called under a nonemptiness guard in the source. -/
def pickProxy (proxies : List String) (r : Nat) : Option String :=
  proxies[r % proxies.length]?

/-- Embeds the expression `"datacenter" if proxy_url else "none"` (main.py). -/
def proxyUsedStr (proxy_url : Option String) : String :=
  match proxy_url with
  | some _ => "datacenter"
  | none => "none"

/-- Value of `time.time() - start_time` after the first `n` attempts have run:
the sum of the first `n` attempt durations. -/
def elapsedAfter (dur : Nat → Nat) (n : Nat) : Nat :=
  ((List.range n).map dur).sum

/-- Record one executed attempt's client arguments in front of the attempt
log of the rest of the run. -/
def consAttempt (a : ClientArgs) (r : FetchResult × List ClientArgs) :
    FetchResult × List ClientArgs :=
  (r.1, a :: r.2)

/-- The body of the `for attempt in range(max_retries)` loop of `scrape_url`
(main.py), with the mutable local `proxy_url` threaded explicitly. `attempt`
is the current 0-based loop index and `fuel` the number of iterations the
`range` still has (`fuel = max_retries - attempt` at every call); when the
loop ends without returning (`fuel = 0`) the fall-through
`"Unknown failure in retry logic"` dictionary is returned. The second
component collects the `ClientArgs` of every attempt executed, one entry per
GET request. -/
def scrape_url_go (url : String) (env : Nat → RawOutcome) (dur : Nat → Nat)
    (proxies : List String) (rng : Nat → Nat) (timeout max_retries : Nat)
    (proxy_url : Option String) (attempt fuel : Nat) :
    FetchResult × List ClientArgs :=
  match fuel with
  | 0 =>
    ({ url := url, status_code := none, content := none
       error := some .unknownRetryFailure
       elapsed_seconds := elapsedAfter dur attempt
       success := false, proxy_used := proxyUsedStr proxy_url }, [])
  | fuel' + 1 =>
    match env attempt with
    | .response s body =>
      if 400 ≤ s ∧ s < 600 then
        -- response.raise_for_status() raises httpx.HTTPStatusError for
        -- 4xx/5xx responses
        if 400 ≤ s ∧ s < 500 then
          -- "Don't retry for client errors (4xx)"
          ({ url := url, status_code := some s, content := none
             error := some (.httpError s)
             elapsed_seconds := elapsedAfter dur (attempt + 1)
             success := false, proxy_used := proxyUsedStr proxy_url },
           [mkClientArgs timeout proxy_url])
        else
          -- "Server errors might be transient, continue retrying";
          -- re-pick the proxy before checking whether budget remains
          if attempt = max_retries - 1 then
            ({ url := url, status_code := some s, content := none
               error := some (.allHttpErrors s)
               elapsed_seconds := elapsedAfter dur (attempt + 1)
               success := false
               proxy_used := proxyUsedStr (if proxies.isEmpty then proxy_url
                 else pickProxy proxies (rng (attempt + 1))) },
             [mkClientArgs timeout proxy_url])
          else
            consAttempt (mkClientArgs timeout proxy_url) <| scrape_url_go url env dur
              proxies rng timeout max_retries
              (if proxies.isEmpty then proxy_url
                else pickProxy proxies (rng (attempt + 1)))
              (attempt + 1) fuel'
      else
        ({ url := url, status_code := some s, content := some body
           error := none, elapsed_seconds := elapsedAfter dur (attempt + 1)
           success := true, proxy_used := proxyUsedStr proxy_url },
         [mkClientArgs timeout proxy_url])
    | .timeout =>
      if attempt = max_retries - 1 then
        ({ url := url, status_code := none, content := none
           error := some .allTimedOut
           elapsed_seconds := elapsedAfter dur (attempt + 1)
           success := false
           proxy_used := proxyUsedStr (if proxies.isEmpty then proxy_url
             else pickProxy proxies (rng (attempt + 1))) },
         [mkClientArgs timeout proxy_url])
      else
        consAttempt (mkClientArgs timeout proxy_url) <| scrape_url_go url env dur proxies
          rng timeout max_retries
          (if proxies.isEmpty then proxy_url
            else pickProxy proxies (rng (attempt + 1)))
          (attempt + 1) fuel'
    | .exc msg =>
      if attempt = max_retries - 1 then
        ({ url := url, status_code := none, content := none
           error := some (.allUnexpected msg)
           elapsed_seconds := elapsedAfter dur (attempt + 1)
           success := false
           proxy_used := proxyUsedStr (if proxies.isEmpty then proxy_url
             else pickProxy proxies (rng (attempt + 1))) },
         [mkClientArgs timeout proxy_url])
      else
        consAttempt (mkClientArgs timeout proxy_url) <| scrape_url_go url env dur proxies
          rng timeout max_retries
          (if proxies.isEmpty then proxy_url
            else pickProxy proxies (rng (attempt + 1)))
          (attempt + 1) fuel'

/-- Function `scrape_url(url, max_retries, timeout)` from main.py, instrumented: pick
the initial proxy (none when the pool is empty), then run the retry loop.
Returns the result dictionary together with the client arguments of every
attempt performed. -/
def scrape_url_run (url : String) (env : Nat → RawOutcome) (dur : Nat → Nat)
    (proxies : List String) (rng : Nat → Nat) (timeout max_retries : Nat) :
    FetchResult × List ClientArgs :=
  let proxy_url := if proxies.isEmpty then none else pickProxy proxies (rng 0)
  scrape_url_go url env dur proxies rng timeout max_retries proxy_url 0 max_retries

/-- The result dictionary of `scrape_url` alone. -/
def scrape_url (url : String) (env : Nat → RawOutcome) (dur : Nat → Nat)
    (proxies : List String) (rng : Nat → Nat) (timeout max_retries : Nat) :
    FetchResult :=
  (scrape_url_run url env dur proxies rng timeout max_retries).1

/-- Embeds `tasks = [scrape_url(url) for url in request.urls]` (main.py): one fetch
per URL, each with its own network/clock/rng oracle selected by position, all
with the defaults `max_retries=3, timeout=30`. `asyncio.gather(*tasks)`
returns the results in task order, which this list models positionally. -/
def batch_tasks (envs : Nat → Nat → RawOutcome) (durs : Nat → Nat → Nat)
    (proxies : List String) (rngs : Nat → Nat → Nat) (i : Nat) :
    List String → List (FetchResult × List ClientArgs)
  | [] => []
  | url :: rest =>
    scrape_url_run url (envs i) (durs i) proxies (rngs i) 30 3 ::
      batch_tasks envs durs proxies rngs (i + 1) rest

/-- The `/scrape` endpoint `scrape_urls(request)` (main.py), instrumented:
reject an empty URL list with `HTTPException(400, "No URLs provided")` before
any fetch; otherwise fetch all URLs, count successes, and build the summary.
`batch_time` is the oracle for the batch wall-clock time. The second
component concatenates the client arguments of every GET request the call
performed, so `[]` means no network activity. -/
def scrape_urls_run (req : ScrapeRequest) (proxies_str : String)
    (envs : Nat → Nat → RawOutcome) (durs : Nat → Nat → Nat)
    (rngs : Nat → Nat → Nat) (batch_time : Nat) :
    Except HTTPError BatchSummary × List ClientArgs :=
  if req.urls = [] then
    (.error { status_code := 400, detail := "No URLs provided" }, [])
  else
    let proxies := get_proxy_list proxies_str
    let runs := batch_tasks envs durs proxies rngs 0 req.urls
    let results := runs.map Prod.fst
    let successful := results.countP (fun r => r.success)
    let failed := results.length - successful
    (.ok { results := results
           total := results.length
           successful := successful
           failed := failed
           total_time_seconds := batch_time
           proxy_type_used := "datacenter" },
     (runs.map Prod.snd).flatten)

/-- The endpoint's response alone. -/
def scrape_urls (req : ScrapeRequest) (proxies_str : String)
    (envs : Nat → Nat → RawOutcome) (durs : Nat → Nat → Nat)
    (rngs : Nat → Nat → Nat) (batch_time : Nat) :
    Except HTTPError BatchSummary :=
  (scrape_urls_run req proxies_str envs durs rngs batch_time).1

/-- An attempt outcome on which `scrape_url` retries (when budget remains):
a timeout, a non-`HTTPStatusError` exception, or a 5xx response. -/
def RetryableOutcome (o : RawOutcome) : Prop :=
  o = .timeout ∨ (∃ m, o = .exc m) ∨
    ∃ s b, o = .response s b ∧ 500 ≤ s ∧ s < 600

/-! ## Lemmas about the retry loop -/

/-- Every branch of the retry loop copies the input `url` into the result. -/
theorem scrape_url_go_url_eq (url : String) (env : Nat → RawOutcome)
    (dur : Nat → Nat) (proxies : List String) (rng : Nat → Nat)
    (timeout max_retries : Nat) :
    ∀ fuel attempt proxy_url,
      (scrape_url_go url env dur proxies rng timeout max_retries proxy_url
        attempt fuel).1.url = url := by
  intro fuel
  induction fuel with
  | zero => intro attempt proxy_url; rfl
  | succ fuel ih =>
    intro attempt proxy_url
    rw [scrape_url_go]
    cases henv : env attempt with
    | response s body =>
      dsimp only
      split
      · split
        · rfl
        · split
          · rfl
          · simpa [consAttempt] using ih (attempt + 1) _
      · rfl
    | timeout =>
      dsimp only
      split
      · rfl
      · simpa [consAttempt] using ih (attempt + 1) _
    | exc msg =>
      dsimp only
      split
      · rfl
      · simpa [consAttempt] using ih (attempt + 1) _

/-- With at least one loop iteration left and the `range` invariant
`attempt + fuel = max_retries`, the loop returns from inside one of its
branches: the fall-through `"Unknown failure in retry logic"` result is never
produced, and between `1` and `fuel` further attempts are executed. -/
theorem scrape_url_go_no_fallthrough (url : String) (env : Nat → RawOutcome)
    (dur : Nat → Nat) (proxies : List String) (rng : Nat → Nat)
    (timeout max_retries : Nat) :
    ∀ fuel attempt proxy_url, 1 ≤ fuel → attempt + fuel = max_retries →
      (scrape_url_go url env dur proxies rng timeout max_retries proxy_url
          attempt fuel).1.error ≠ some .unknownRetryFailure ∧
      1 ≤ (scrape_url_go url env dur proxies rng timeout max_retries proxy_url
          attempt fuel).2.length ∧
      (scrape_url_go url env dur proxies rng timeout max_retries proxy_url
          attempt fuel).2.length ≤ fuel := by
  intro fuel
  induction fuel with
  | zero => intro attempt proxy_url h; omega
  | succ fuel ih =>
    intro attempt proxy_url _ hinv
    rw [scrape_url_go]
    cases henv : env attempt with
    | response s body =>
      dsimp only
      split
      · split
        · refine ⟨by simp, by simp, by simp⟩
        · split
          · refine ⟨by simp, by simp, by simp⟩
          · next hlast =>
            have hfuel : 1 ≤ fuel := by omega
            have := ih (attempt + 1)
              (if proxies.isEmpty then proxy_url
                else pickProxy proxies (rng (attempt + 1))) hfuel (by omega)
            refine ⟨by simpa [consAttempt] using this.1, ?_, ?_⟩ <;>
              simp only [consAttempt, List.length_cons] <;> omega
      · refine ⟨by simp, by simp, by simp⟩
    | timeout =>
      dsimp only
      split
      · refine ⟨by simp, by simp, by simp⟩
      · next hlast =>
        have hfuel : 1 ≤ fuel := by omega
        have := ih (attempt + 1)
          (if proxies.isEmpty then proxy_url
            else pickProxy proxies (rng (attempt + 1))) hfuel (by omega)
        refine ⟨by simpa [consAttempt] using this.1, ?_, ?_⟩ <;>
          simp only [consAttempt, List.length_cons] <;> omega
    | exc msg =>
      dsimp only
      split
      · refine ⟨by simp, by simp, by simp⟩
      · next hlast =>
        have hfuel : 1 ≤ fuel := by omega
        have := ih (attempt + 1)
          (if proxies.isEmpty then proxy_url
            else pickProxy proxies (rng (attempt + 1))) hfuel (by omega)
        refine ⟨by simpa [consAttempt] using this.1, ?_, ?_⟩ <;>
          simp only [consAttempt, List.length_cons] <;> omega

/-- When every remaining attempt times out, the loop runs all remaining
iterations and returns the `"All retry attempts timed out"` failure. -/
theorem scrape_url_go_all_timeouts (url : String) (env : Nat → RawOutcome)
    (dur : Nat → Nat) (proxies : List String) (rng : Nat → Nat)
    (timeout max_retries : Nat) :
    ∀ fuel attempt proxy_url, 1 ≤ fuel → attempt + fuel = max_retries →
      (∀ k, attempt ≤ k → k < max_retries → env k = .timeout) →
      (scrape_url_go url env dur proxies rng timeout max_retries proxy_url
          attempt fuel).1.success = false ∧
      (scrape_url_go url env dur proxies rng timeout max_retries proxy_url
          attempt fuel).1.error = some .allTimedOut ∧
      (scrape_url_go url env dur proxies rng timeout max_retries proxy_url
          attempt fuel).1.status_code = none ∧
      (scrape_url_go url env dur proxies rng timeout max_retries proxy_url
          attempt fuel).1.elapsed_seconds = elapsedAfter dur max_retries ∧
      (scrape_url_go url env dur proxies rng timeout max_retries proxy_url
          attempt fuel).2.length = fuel := by
  intro fuel
  induction fuel with
  | zero => intro attempt proxy_url h; omega
  | succ fuel ih =>
    intro attempt proxy_url _ hinv henv
    rw [scrape_url_go, henv attempt (le_refl attempt) (by omega)]
    dsimp only
    split
    · next hlast =>
      have hfin : attempt + 1 = max_retries := by omega
      have hfuel : fuel = 0 := by omega
      refine ⟨by simp, by simp, by simp, by simp [hfin], by simp [hfuel]⟩
    · next hlast =>
      have hfuel : 1 ≤ fuel := by omega
      have := ih (attempt + 1)
        (if proxies.isEmpty then proxy_url
          else pickProxy proxies (rng (attempt + 1))) hfuel (by omega)
        (fun k hk1 hk2 => henv k (by omega) hk2)
      refine ⟨by simpa [consAttempt] using this.1,
        by simpa [consAttempt] using this.2.1,
        by simpa [consAttempt] using this.2.2.1,
        by simpa [consAttempt] using this.2.2.2.1, ?_⟩
      simp only [consAttempt, List.length_cons]
      omega

/-- If attempts `attempt, ..., k-1` all yield retryable outcomes and attempt
`k` yields a response with a 4xx status, the loop stops at attempt `k` with
the terminal client-error result: no retry is performed afterwards. -/
theorem scrape_url_go_client_error (url : String) (env : Nat → RawOutcome)
    (dur : Nat → Nat) (proxies : List String) (rng : Nat → Nat)
    (timeout max_retries k s : Nat) (b : String)
    (henvk : env k = .response s b) (h4 : 400 ≤ s) (h5 : s < 500) :
    ∀ fuel attempt proxy_url, attempt + fuel = max_retries →
      attempt ≤ k → k < max_retries →
      (∀ j, attempt ≤ j → j < k → RetryableOutcome (env j)) →
      (scrape_url_go url env dur proxies rng timeout max_retries proxy_url
          attempt fuel).1.success = false ∧
      (scrape_url_go url env dur proxies rng timeout max_retries proxy_url
          attempt fuel).1.status_code = some s ∧
      (scrape_url_go url env dur proxies rng timeout max_retries proxy_url
          attempt fuel).1.error = some (.httpError s) ∧
      (scrape_url_go url env dur proxies rng timeout max_retries proxy_url
          attempt fuel).1.elapsed_seconds = elapsedAfter dur (k + 1) ∧
      (scrape_url_go url env dur proxies rng timeout max_retries proxy_url
          attempt fuel).2.length = k - attempt + 1 := by
  intro fuel
  induction fuel with
  | zero => intro attempt proxy_url hinv hak hk _; omega
  | succ fuel ih =>
    intro attempt proxy_url hinv hak hk hpre
    by_cases heq : attempt = k
    · subst heq
      rw [scrape_url_go, henvk]
      dsimp only
      rw [if_pos ⟨h4, by omega⟩, if_pos ⟨h4, h5⟩]
      refine ⟨rfl, rfl, rfl, rfl, by simp⟩
    · have hlt : attempt < k := by omega
      have hlast : ¬(attempt = max_retries - 1) := by omega
      have hih := ih (attempt + 1)
        (if proxies.isEmpty then proxy_url
          else pickProxy proxies (rng (attempt + 1)))
        (by omega) (by omega) hk (fun j hj1 hj2 => hpre j (by omega) hj2)
      rcases hpre attempt (le_refl attempt) hlt with hto | ⟨m, hm⟩ |
        ⟨s', b', hr, hs1, hs2⟩
      · rw [scrape_url_go, hto]
        dsimp only
        rw [if_neg hlast]
        refine ⟨by simpa [consAttempt] using hih.1,
          by simpa [consAttempt] using hih.2.1,
          by simpa [consAttempt] using hih.2.2.1,
          by simpa [consAttempt] using hih.2.2.2.1, ?_⟩
        simp only [consAttempt, List.length_cons]
        omega
      · rw [scrape_url_go, hm]
        dsimp only
        rw [if_neg hlast]
        refine ⟨by simpa [consAttempt] using hih.1,
          by simpa [consAttempt] using hih.2.1,
          by simpa [consAttempt] using hih.2.2.1,
          by simpa [consAttempt] using hih.2.2.2.1, ?_⟩
        simp only [consAttempt, List.length_cons]
        omega
      · rw [scrape_url_go, hr]
        dsimp only
        rw [if_pos ⟨by omega, hs2⟩, if_neg (by omega : ¬(400 ≤ s' ∧ s' < 500)),
          if_neg hlast]
        refine ⟨by simpa [consAttempt] using hih.1,
          by simpa [consAttempt] using hih.2.1,
          by simpa [consAttempt] using hih.2.2.1,
          by simpa [consAttempt] using hih.2.2.2.1, ?_⟩
        simp only [consAttempt, List.length_cons]
        omega

/-- If attempts `attempt, ..., k-1` all yield retryable outcomes and attempt
`k` yields a response whose status does not trigger `raise_for_status`, the
loop returns the success result of attempt `k`. -/
theorem scrape_url_go_success (url : String) (env : Nat → RawOutcome)
    (dur : Nat → Nat) (proxies : List String) (rng : Nat → Nat)
    (timeout max_retries k s : Nat) (b : String)
    (henvk : env k = .response s b) (hno : ¬(400 ≤ s ∧ s < 600)) :
    ∀ fuel attempt proxy_url, attempt + fuel = max_retries →
      attempt ≤ k → k < max_retries →
      (∀ j, attempt ≤ j → j < k → RetryableOutcome (env j)) →
      (scrape_url_go url env dur proxies rng timeout max_retries proxy_url
          attempt fuel).1.success = true ∧
      (scrape_url_go url env dur proxies rng timeout max_retries proxy_url
          attempt fuel).1.status_code = some s ∧
      (scrape_url_go url env dur proxies rng timeout max_retries proxy_url
          attempt fuel).1.content = some b ∧
      (scrape_url_go url env dur proxies rng timeout max_retries proxy_url
          attempt fuel).1.error = none ∧
      (scrape_url_go url env dur proxies rng timeout max_retries proxy_url
          attempt fuel).1.elapsed_seconds = elapsedAfter dur (k + 1) ∧
      (scrape_url_go url env dur proxies rng timeout max_retries proxy_url
          attempt fuel).2.length = k - attempt + 1 := by
  intro fuel
  induction fuel with
  | zero => intro attempt proxy_url hinv hak hk _; omega
  | succ fuel ih =>
    intro attempt proxy_url hinv hak hk hpre
    by_cases heq : attempt = k
    · subst heq
      rw [scrape_url_go, henvk]
      dsimp only
      rw [if_neg hno]
      refine ⟨rfl, rfl, rfl, rfl, rfl, by simp⟩
    · have hlt : attempt < k := by omega
      have hlast : ¬(attempt = max_retries - 1) := by omega
      have hih := ih (attempt + 1)
        (if proxies.isEmpty then proxy_url
          else pickProxy proxies (rng (attempt + 1)))
        (by omega) (by omega) hk (fun j hj1 hj2 => hpre j (by omega) hj2)
      rcases hpre attempt (le_refl attempt) hlt with hto | ⟨m, hm⟩ |
        ⟨s', b', hr, hs1, hs2⟩
      · rw [scrape_url_go, hto]
        dsimp only
        rw [if_neg hlast]
        refine ⟨by simpa [consAttempt] using hih.1,
          by simpa [consAttempt] using hih.2.1,
          by simpa [consAttempt] using hih.2.2.1,
          by simpa [consAttempt] using hih.2.2.2.1,
          by simpa [consAttempt] using hih.2.2.2.2.1, ?_⟩
        simp only [consAttempt, List.length_cons]
        omega
      · rw [scrape_url_go, hm]
        dsimp only
        rw [if_neg hlast]
        refine ⟨by simpa [consAttempt] using hih.1,
          by simpa [consAttempt] using hih.2.1,
          by simpa [consAttempt] using hih.2.2.1,
          by simpa [consAttempt] using hih.2.2.2.1,
          by simpa [consAttempt] using hih.2.2.2.2.1, ?_⟩
        simp only [consAttempt, List.length_cons]
        omega
      · rw [scrape_url_go, hr]
        dsimp only
        rw [if_pos ⟨by omega, hs2⟩, if_neg (by omega : ¬(400 ≤ s' ∧ s' < 500)),
          if_neg hlast]
        refine ⟨by simpa [consAttempt] using hih.1,
          by simpa [consAttempt] using hih.2.1,
          by simpa [consAttempt] using hih.2.2.1,
          by simpa [consAttempt] using hih.2.2.2.1,
          by simpa [consAttempt] using hih.2.2.2.2.1, ?_⟩
        simp only [consAttempt, List.length_cons]
        omega

/-- Every entry of the attempt log is a `client_args` dictionary built by
`mkClientArgs` with the call's timeout and some current proxy. -/
theorem scrape_url_go_args (url : String) (env : Nat → RawOutcome)
    (dur : Nat → Nat) (proxies : List String) (rng : Nat → Nat)
    (timeout max_retries : Nat) :
    ∀ fuel attempt proxy_url a,
      a ∈ (scrape_url_go url env dur proxies rng timeout max_retries proxy_url
        attempt fuel).2 → ∃ p, a = mkClientArgs timeout p := by
  intro fuel
  induction fuel with
  | zero =>
    intro attempt proxy_url a ha
    rw [scrape_url_go] at ha
    simp at ha
  | succ fuel ih =>
    intro attempt proxy_url a ha
    rw [scrape_url_go] at ha
    cases henv : env attempt with
    | response s body =>
      rw [henv] at ha
      dsimp only at ha
      split at ha
      · split at ha
        · simp at ha
          exact ⟨proxy_url, ha⟩
        · split at ha
          · simp at ha
            exact ⟨proxy_url, ha⟩
          · simp only [consAttempt, List.mem_cons] at ha
            rcases ha with rfl | ha
            · exact ⟨proxy_url, rfl⟩
            · exact ih _ _ a ha
      · simp at ha
        exact ⟨proxy_url, ha⟩
    | timeout =>
      rw [henv] at ha
      dsimp only at ha
      split at ha
      · simp at ha
        exact ⟨proxy_url, ha⟩
      · simp only [consAttempt, List.mem_cons] at ha
        rcases ha with rfl | ha
        · exact ⟨proxy_url, rfl⟩
        · exact ih _ _ a ha
    | exc msg =>
      rw [henv] at ha
      dsimp only at ha
      split at ha
      · simp at ha
        exact ⟨proxy_url, ha⟩
      · simp only [consAttempt, List.mem_cons] at ha
        rcases ha with rfl | ha
        · exact ⟨proxy_url, rfl⟩
        · exact ih _ _ a ha

/-! ## Lemmas about the batch -/

/-- One task is created per input URL. -/
theorem batch_tasks_length (envs : Nat → Nat → RawOutcome)
    (durs : Nat → Nat → Nat) (proxies : List String)
    (rngs : Nat → Nat → Nat) :
    ∀ (urls : List String) (i : Nat),
      (batch_tasks envs durs proxies rngs i urls).length = urls.length := by
  intro urls
  induction urls with
  | nil => intro i; rfl
  | cons u rest ih => intro i; simp [batch_tasks, ih]

/-- The `j`-th gathered task is the fetch of the `j`-th URL, run under the
`j`-th per-URL oracles. -/
theorem batch_tasks_getElem? (envs : Nat → Nat → RawOutcome)
    (durs : Nat → Nat → Nat) (proxies : List String)
    (rngs : Nat → Nat → Nat) :
    ∀ (urls : List String) (i j : Nat),
      (batch_tasks envs durs proxies rngs i urls)[j]? =
        (urls[j]?).map (fun url => scrape_url_run url (envs (i + j))
          (durs (i + j)) proxies (rngs (i + j)) 30 3) := by
  intro urls
  induction urls with
  | nil => intro i j; simp [batch_tasks]
  | cons u rest ih =>
    intro i j
    cases j with
    | zero => simp [batch_tasks]
    | succ j =>
      rw [batch_tasks, List.getElem?_cons_succ, List.getElem?_cons_succ, ih]
      have h : i + 1 + j = i + (j + 1) := by omega
      rw [h]

/-! ## The claims -/

/-- C1: for every non-empty input URL list, the batch call succeeds with a
summary in which `total` equals the length of the results sequence, which
equals the number of input URLs, and `successful + failed = total` with both
counts non-negative. -/
theorem batch_summary_counts (req : ScrapeRequest) (proxies_str : String)
    (envs : Nat → Nat → RawOutcome) (durs : Nat → Nat → Nat)
    (rngs : Nat → Nat → Nat) (batch_time : Nat) (h : req.urls ≠ []) :
    ∃ summary,
      (scrape_urls_run req proxies_str envs durs rngs batch_time).1 =
        .ok summary ∧
      summary.total = summary.results.length ∧
      summary.results.length = req.urls.length ∧
      summary.successful + summary.failed = summary.total ∧
      0 ≤ summary.successful ∧ 0 ≤ summary.failed := by
  rw [scrape_urls_run, if_neg h]
  dsimp only
  refine ⟨_, rfl, rfl, ?_, ?_, Nat.zero_le _, Nat.zero_le _⟩
  · simp [List.length_map, batch_tasks_length]
  · have hle := @List.countP_le_length FetchResult
      (fun r : FetchResult => r.success)
      ((batch_tasks envs durs (get_proxy_list proxies_str) rngs 0
        req.urls).map Prod.fst)
    exact Nat.add_sub_cancel' hle

/-- C2: the results sequence of the batch summary preserves the original
input order: the `j`-th FetchResult is exactly the fetch of the `j`-th input
URL (run under that URL's own network/clock/rng oracles), and in particular
carries the `j`-th input URL; the concurrent completion order never enters
the collection, which is positional. -/
theorem batch_preserves_input_order (req : ScrapeRequest)
    (proxies_str : String) (envs : Nat → Nat → RawOutcome)
    (durs : Nat → Nat → Nat) (rngs : Nat → Nat → Nat) (batch_time : Nat)
    (h : req.urls ≠ []) :
    ∃ summary,
      (scrape_urls_run req proxies_str envs durs rngs batch_time).1 =
        .ok summary ∧
      (∀ j : Nat, summary.results[j]? = (req.urls[j]?).map (fun url =>
        scrape_url url (envs j) (durs j) (get_proxy_list proxies_str)
          (rngs j) 30 3)) ∧
      (∀ j : Nat, (summary.results[j]?).map FetchResult.url =
        req.urls[j]?) := by
  rw [scrape_urls_run, if_neg h]
  dsimp only
  refine ⟨_, rfl, ?_, ?_⟩
  · intro j
    rw [List.getElem?_map, batch_tasks_getElem?]
    simp [scrape_url, Function.comp_def]
  · intro j
    rw [List.getElem?_map, batch_tasks_getElem?]
    cases hj : req.urls[j]? with
    | none => rfl
    | some u =>
      simp only [Nat.zero_add, Option.map_map, Option.map_some']
      show some ((scrape_url_run u (envs j) (durs j)
        (get_proxy_list proxies_str) (rngs j) 30 3).1.url) = some u
      exact congrArg some (scrape_url_go_url_eq u (envs j) (durs j)
        (get_proxy_list proxies_str) (rngs j) 30 3 3 0 _)

/-- C3: an empty input URL list is rejected with
`HTTPException(400, "No URLs provided")` before any fetch: no results are
produced and no HTTP client is ever constructed (the attempt log is empty,
i.e. no network activity). -/
theorem empty_batch_rejected (req : ScrapeRequest) (proxies_str : String)
    (envs : Nat → Nat → RawOutcome) (durs : Nat → Nat → Nat)
    (rngs : Nat → Nat → Nat) (batch_time : Nat) (h : req.urls = []) :
    scrape_urls_run req proxies_str envs durs rngs batch_time =
      (.error { status_code := 400, detail := "No URLs provided" }, []) := by
  rw [scrape_urls_run, if_pos h]

/-- C9: the batch call never reads the request's `proxy_type` field: two
requests that differ only in `proxy_type` (any string is accepted by the
model) produce identical responses and identical network activity, so every
value is treated exactly like `"datacenter"`. -/
theorem proxy_type_ignored (urls : List String) (pt1 pt2 : String)
    (proxies_str : String) (envs : Nat → Nat → RawOutcome)
    (durs : Nat → Nat → Nat) (rngs : Nat → Nat → Nat) (batch_time : Nat) :
    scrape_urls_run { urls := urls, proxy_type := pt1 } proxies_str envs durs
        rngs batch_time =
      scrape_urls_run { urls := urls, proxy_type := pt2 } proxies_str envs
        durs rngs batch_time := rfl

/-- C4: whenever attempt `k` (with all earlier attempts retryable) yields an
HTTP status in `[400, 500)`, the fetch stops immediately: no retry happens
regardless of the remaining budget, exactly `k + 1` attempts are made in
total (exactly one when the client error is on the first attempt), and the
result has `success = false` with that status code. -/
theorem client_error_stops_retries (url : String) (env : Nat → RawOutcome)
    (dur : Nat → Nat) (proxies : List String) (rng : Nat → Nat)
    (timeout max_retries k s : Nat) (b : String)
    (hk : k < max_retries)
    (hpre : ∀ j, j < k → RetryableOutcome (env j))
    (henvk : env k = .response s b) (h4 : 400 ≤ s) (h5 : s < 500) :
    (scrape_url url env dur proxies rng timeout max_retries).success =
      false ∧
    (scrape_url url env dur proxies rng timeout max_retries).status_code =
      some s ∧
    (scrape_url url env dur proxies rng timeout max_retries).error =
      some (.httpError s) ∧
    (scrape_url_run url env dur proxies rng timeout max_retries).2.length =
      k + 1 := by
  have hgo := scrape_url_go_client_error url env dur proxies rng timeout
    max_retries k s b henvk h4 h5 max_retries 0
    (if proxies.isEmpty then none else pickProxy proxies (rng 0))
    (by omega) (by omega) hk (fun j hj1 hj2 => hpre j hj2)
  refine ⟨?_, ?_, ?_, ?_⟩
  · simpa [scrape_url, scrape_url_run] using hgo.1
  · simpa [scrape_url, scrape_url_run] using hgo.2.1
  · simpa [scrape_url, scrape_url_run] using hgo.2.2.1
  · simpa [scrape_url_run] using hgo.2.2.2.2

/-- C5: when every attempt up to the budget times out, the fetch makes
exactly `max_retries` attempts and returns the terminal exhausted-retries
failure: `success = false` with the `"All retry attempts timed out"` error
(and no status code). -/
theorem timeout_exhausts_all_retries (url : String) (env : Nat → RawOutcome)
    (dur : Nat → Nat) (proxies : List String) (rng : Nat → Nat)
    (timeout max_retries : Nat) (hm : 1 ≤ max_retries)
    (henv : ∀ k, k < max_retries → env k = .timeout) :
    (scrape_url url env dur proxies rng timeout max_retries).success =
      false ∧
    (scrape_url url env dur proxies rng timeout max_retries).error =
      some .allTimedOut ∧
    (scrape_url url env dur proxies rng timeout max_retries).status_code =
      none ∧
    (scrape_url_run url env dur proxies rng timeout max_retries).2.length =
      max_retries := by
  have hgo := scrape_url_go_all_timeouts url env dur proxies rng timeout
    max_retries max_retries 0
    (if proxies.isEmpty then none else pickProxy proxies (rng 0))
    hm (by omega) (fun k _ hk2 => henv k hk2)
  refine ⟨?_, ?_, ?_, ?_⟩
  · simpa [scrape_url, scrape_url_run] using hgo.1
  · simpa [scrape_url, scrape_url_run] using hgo.2.1
  · simpa [scrape_url, scrape_url_run] using hgo.2.2.1
  · simpa [scrape_url_run] using hgo.2.2.2.2

/-- C6: for a URL that gets HTTP 500 on attempt 1 and HTTP 200 on attempt 2
with `max_retries = 3`, the fetch makes exactly 2 attempts and returns
`success = true` with status code 200 and the second response's body. -/
theorem server_error_then_success (url : String) (env : Nat → RawOutcome)
    (dur : Nat → Nat) (proxies : List String) (rng : Nat → Nat)
    (timeout : Nat) (b0 b1 : String)
    (h0 : env 0 = .response 500 b0) (h1 : env 1 = .response 200 b1) :
    (scrape_url url env dur proxies rng timeout 3).success = true ∧
    (scrape_url url env dur proxies rng timeout 3).status_code = some 200 ∧
    (scrape_url url env dur proxies rng timeout 3).content = some b1 ∧
    (scrape_url_run url env dur proxies rng timeout 3).2.length = 2 := by
  have hgo := scrape_url_go_success url env dur proxies rng timeout 3 1 200
    b1 h1 (by omega) 3 0
    (if proxies.isEmpty then none else pickProxy proxies (rng 0))
    (by omega) (by omega) (by omega)
    (fun j hj1 hj2 => by
      have hj0 : j = 0 := by omega
      subst hj0
      exact Or.inr (Or.inr ⟨500, b0, h0, by omega, by omega⟩))
  refine ⟨?_, ?_, ?_, ?_⟩
  · simpa [scrape_url, scrape_url_run] using hgo.1
  · simpa [scrape_url, scrape_url_run] using hgo.2.1
  · simpa [scrape_url, scrape_url_run] using hgo.2.2.1
  · simpa [scrape_url_run] using hgo.2.2.2.2.2

/-- C7: an attempt whose final (post-redirect) response status lies in the
2xx or 3xx range is classified as success: the fetch returns `success = true`
with that status code, the body text, and the elapsed time from the start of
the fetch to the end of that attempt. -/
theorem success_status_classification (url : String) (env : Nat → RawOutcome)
    (dur : Nat → Nat) (proxies : List String) (rng : Nat → Nat)
    (timeout max_retries k s : Nat) (b : String)
    (hk : k < max_retries)
    (hpre : ∀ j, j < k → RetryableOutcome (env j))
    (henvk : env k = .response s b) (h2 : 200 ≤ s) (h3 : s < 400) :
    (scrape_url url env dur proxies rng timeout max_retries).success =
      true ∧
    (scrape_url url env dur proxies rng timeout max_retries).status_code =
      some s ∧
    (scrape_url url env dur proxies rng timeout max_retries).content =
      some b ∧
    (scrape_url url env dur proxies rng timeout max_retries).error = none ∧
    (scrape_url url env dur proxies rng timeout
      max_retries).elapsed_seconds = elapsedAfter dur (k + 1) := by
  have hgo := scrape_url_go_success url env dur proxies rng timeout
    max_retries k s b henvk (by omega) max_retries 0
    (if proxies.isEmpty then none else pickProxy proxies (rng 0))
    (by omega) (by omega) hk (fun j hj1 hj2 => hpre j hj2)
  refine ⟨?_, ?_, ?_, ?_, ?_⟩
  · simpa [scrape_url, scrape_url_run] using hgo.1
  · simpa [scrape_url, scrape_url_run] using hgo.2.1
  · simpa [scrape_url, scrape_url_run] using hgo.2.2.1
  · simpa [scrape_url, scrape_url_run] using hgo.2.2.2.1
  · simpa [scrape_url, scrape_url_run] using hgo.2.2.2.2.1

/-- C8 (as written) is false: the client is never configured with TLS
certificate validation disabled. The `client_args` dictionary built for an
attempt has no `verify` key at all (so the library default — validation
enabled — applies); in particular its `verify` entry is not `False`. -/
theorem tls_not_disabled_cex :
    ¬ ((mkClientArgs 30 none).follow_redirects = true ∧
       (mkClientArgs 30 none).verify = some false) := by
  decide

/-- C8 (amended): every attempt of a fetch performs its one GET request
through a client constructed with `follow_redirects = True`, `http2 = False`
and the given timeout, and with the `verify` keyword left unset, so TLS
certificate validation keeps the library default (enabled) rather than being
disabled. -/
theorem client_args_shape (url : String) (env : Nat → RawOutcome)
    (dur : Nat → Nat) (proxies : List String) (rng : Nat → Nat)
    (timeout max_retries : Nat) (a : ClientArgs)
    (ha : a ∈ (scrape_url_run url env dur proxies rng timeout
      max_retries).2) :
    a.follow_redirects = true ∧ a.http2 = false ∧ a.verify = none ∧
      a.timeout = timeout := by
  obtain ⟨p, hp⟩ := scrape_url_go_args url env dur proxies rng timeout
    max_retries max_retries 0
    (if proxies.isEmpty then none else pickProxy proxies (rng 0)) a
    (by simpa [scrape_url_run] using ha)
  subst hp
  exact ⟨rfl, rfl, rfl, rfl⟩

/-- C10: with `max_retries ≥ 1` the retry loop always returns from within
one of its branches: the fall-through `"Unknown failure in retry logic"`
result after the loop is unreachable, and between 1 and `max_retries`
attempts are performed. -/
theorem retry_loop_always_returns (url : String) (env : Nat → RawOutcome)
    (dur : Nat → Nat) (proxies : List String) (rng : Nat → Nat)
    (timeout max_retries : Nat) (hm : 1 ≤ max_retries) :
    (scrape_url url env dur proxies rng timeout max_retries).error ≠
      some .unknownRetryFailure ∧
    1 ≤ (scrape_url_run url env dur proxies rng timeout
      max_retries).2.length ∧
    (scrape_url_run url env dur proxies rng timeout max_retries).2.length ≤
      max_retries := by
  have hgo := scrape_url_go_no_fallthrough url env dur proxies rng timeout
    max_retries max_retries 0
    (if proxies.isEmpty then none else pickProxy proxies (rng 0))
    hm (by omega)
  refine ⟨?_, ?_, ?_⟩
  · simpa [scrape_url, scrape_url_run] using hgo.1
  · simpa [scrape_url_run] using hgo.2.1
  · simpa [scrape_url_run] using hgo.2.2

/-! ## Witnesses: the claim theorems applied at concrete inputs -/

/-- Witness for C1 on a concrete two-URL batch whose fetches all time out. -/
theorem batch_summary_counts_witness :
    ({ urls := ["http://a", "http://b"], proxy_type := "datacenter" } :
      ScrapeRequest).urls ≠ [] ∧
    ∃ summary,
      (scrape_urls_run
          { urls := ["http://a", "http://b"], proxy_type := "datacenter" }
          "" (fun _ _ => RawOutcome.timeout) (fun _ _ => 1) (fun _ _ => 0)
          7).1 = .ok summary ∧
      summary.total = summary.results.length ∧
      summary.results.length =
        ({ urls := ["http://a", "http://b"], proxy_type := "datacenter" } :
          ScrapeRequest).urls.length ∧
      summary.successful + summary.failed = summary.total ∧
      0 ≤ summary.successful ∧ 0 ≤ summary.failed :=
  ⟨by decide,
    batch_summary_counts
      { urls := ["http://a", "http://b"], proxy_type := "datacenter" } ""
      (fun _ _ => RawOutcome.timeout) (fun _ _ => 1) (fun _ _ => 0) 7
      (by decide)⟩

/-- Witness for C2 on a concrete two-URL batch. -/
theorem batch_preserves_input_order_witness :
    ({ urls := ["http://a", "http://b"], proxy_type := "residential" } :
      ScrapeRequest).urls ≠ [] ∧
    ∃ summary,
      (scrape_urls_run
          { urls := ["http://a", "http://b"], proxy_type := "residential" }
          "" (fun _ _ => RawOutcome.timeout) (fun _ _ => 1) (fun _ _ => 0)
          7).1 = .ok summary ∧
      (∀ j : Nat, summary.results[j]? =
        ((["http://a", "http://b"] : List String)[j]?).map (fun url =>
          scrape_url url ((fun _ _ => RawOutcome.timeout) j)
            ((fun _ _ => (1 : Nat)) j) (get_proxy_list "")
            ((fun _ _ => (0 : Nat)) j) 30 3)) ∧
      (∀ j : Nat, (summary.results[j]?).map FetchResult.url =
        (["http://a", "http://b"] : List String)[j]?) :=
  ⟨by decide,
    batch_preserves_input_order
      { urls := ["http://a", "http://b"], proxy_type := "residential" } ""
      (fun _ _ => RawOutcome.timeout) (fun _ _ => 1) (fun _ _ => 0) 7
      (by decide)⟩

/-- Witness for C3 on the concrete empty batch. -/
theorem empty_batch_rejected_witness :
    ({ urls := [], proxy_type := "datacenter" } : ScrapeRequest).urls =
      [] ∧
    scrape_urls_run { urls := [], proxy_type := "datacenter" } ""
        (fun _ _ => RawOutcome.timeout) (fun _ _ => 0) (fun _ _ => 0) 0 =
      (.error { status_code := 400, detail := "No URLs provided" }, []) :=
  ⟨rfl,
    empty_batch_rejected { urls := [], proxy_type := "datacenter" } ""
      (fun _ _ => RawOutcome.timeout) (fun _ _ => 0) (fun _ _ => 0) 0 rfl⟩

/-- Witness for C4: a 404 on the very first attempt, with budget 3. -/
theorem client_error_stops_retries_witness :
    (0 : Nat) < 3 ∧ (400 : Nat) ≤ 404 ∧ (404 : Nat) < 500 ∧
    (scrape_url "http://e" (fun _ => RawOutcome.response 404 "not found")
      (fun _ => 1) [] (fun _ => 0) 30 3).success = false ∧
    (scrape_url "http://e" (fun _ => RawOutcome.response 404 "not found")
      (fun _ => 1) [] (fun _ => 0) 30 3).status_code = some 404 ∧
    (scrape_url "http://e" (fun _ => RawOutcome.response 404 "not found")
      (fun _ => 1) [] (fun _ => 0) 30 3).error =
      some (.httpError 404) ∧
    (scrape_url_run "http://e" (fun _ => RawOutcome.response 404 "not found")
      (fun _ => 1) [] (fun _ => 0) 30 3).2.length = 0 + 1 :=
  ⟨by decide, by decide, by decide,
    client_error_stops_retries "http://e"
      (fun _ => RawOutcome.response 404 "not found") (fun _ => 1) []
      (fun _ => 0) 30 3 0 404 "not found" (by decide)
      (fun j hj => absurd hj (Nat.not_lt_zero j)) rfl (by decide)
      (by decide)⟩

/-- Witness for C5: three timeouts with budget 3. -/
theorem timeout_exhausts_all_retries_witness :
    (1 : Nat) ≤ 3 ∧
    (scrape_url "http://t" (fun _ => RawOutcome.timeout) (fun _ => 2) []
      (fun _ => 0) 30 3).success = false ∧
    (scrape_url "http://t" (fun _ => RawOutcome.timeout) (fun _ => 2) []
      (fun _ => 0) 30 3).error = some .allTimedOut ∧
    (scrape_url "http://t" (fun _ => RawOutcome.timeout) (fun _ => 2) []
      (fun _ => 0) 30 3).status_code = none ∧
    (scrape_url_run "http://t" (fun _ => RawOutcome.timeout) (fun _ => 2) []
      (fun _ => 0) 30 3).2.length = 3 :=
  ⟨by decide,
    timeout_exhausts_all_retries "http://t" (fun _ => RawOutcome.timeout)
      (fun _ => 2) [] (fun _ => 0) 30 3 (by decide) (fun k _ => rfl)⟩

/-- Witness for C6: 500 then 200, with budget 3. -/
theorem server_error_then_success_witness :
    (fun k => match k with
      | 0 => RawOutcome.response 500 "oops"
      | _ + 1 => RawOutcome.response 200 "ok") 0 =
      RawOutcome.response 500 "oops" ∧
    (scrape_url "http://r" (fun k => match k with
      | 0 => RawOutcome.response 500 "oops"
      | _ + 1 => RawOutcome.response 200 "ok") (fun _ => 1) [] (fun _ => 0)
      30 3).success = true ∧
    (scrape_url "http://r" (fun k => match k with
      | 0 => RawOutcome.response 500 "oops"
      | _ + 1 => RawOutcome.response 200 "ok") (fun _ => 1) [] (fun _ => 0)
      30 3).status_code = some 200 ∧
    (scrape_url "http://r" (fun k => match k with
      | 0 => RawOutcome.response 500 "oops"
      | _ + 1 => RawOutcome.response 200 "ok") (fun _ => 1) [] (fun _ => 0)
      30 3).content = some "ok" ∧
    (scrape_url_run "http://r" (fun k => match k with
      | 0 => RawOutcome.response 500 "oops"
      | _ + 1 => RawOutcome.response 200 "ok") (fun _ => 1) [] (fun _ => 0)
      30 3).2.length = 2 :=
  ⟨rfl,
    server_error_then_success "http://r" (fun k => match k with
      | 0 => RawOutcome.response 500 "oops"
      | _ + 1 => RawOutcome.response 200 "ok") (fun _ => 1) [] (fun _ => 0)
      30 "oops" "ok" rfl rfl⟩

/-- Witness for C7: a 200 on the very first attempt. -/
theorem success_status_classification_witness :
    (0 : Nat) < 3 ∧ (200 : Nat) ≤ 200 ∧ (200 : Nat) < 400 ∧
    (scrape_url "http://s" (fun _ => RawOutcome.response 200 "body")
      (fun _ => 4) [] (fun _ => 0) 30 3).success = true ∧
    (scrape_url "http://s" (fun _ => RawOutcome.response 200 "body")
      (fun _ => 4) [] (fun _ => 0) 30 3).status_code = some 200 ∧
    (scrape_url "http://s" (fun _ => RawOutcome.response 200 "body")
      (fun _ => 4) [] (fun _ => 0) 30 3).content = some "body" ∧
    (scrape_url "http://s" (fun _ => RawOutcome.response 200 "body")
      (fun _ => 4) [] (fun _ => 0) 30 3).error = none ∧
    (scrape_url "http://s" (fun _ => RawOutcome.response 200 "body")
      (fun _ => 4) [] (fun _ => 0) 30 3).elapsed_seconds =
      elapsedAfter (fun _ => 4) (0 + 1) :=
  ⟨by decide, by decide, by decide,
    success_status_classification "http://s"
      (fun _ => RawOutcome.response 200 "body") (fun _ => 4) [] (fun _ => 0)
      30 3 0 200 "body" (by decide)
      (fun j hj => absurd hj (Nat.not_lt_zero j)) rfl (by decide)
      (by decide)⟩

/-- Witness for the amended C8: the single attempt of a one-retry fetch uses
a client with redirects on, HTTP/2 off and `verify` unset. -/
theorem client_args_shape_witness :
    mkClientArgs 30 none ∈
      (scrape_url_run "http://c" (fun _ => RawOutcome.timeout) (fun _ => 0)
        [] (fun _ => 0) 30 1).2 ∧
    (mkClientArgs 30 none).follow_redirects = true ∧
    (mkClientArgs 30 none).http2 = false ∧
    (mkClientArgs 30 none).verify = none ∧
    (mkClientArgs 30 none).timeout = 30 :=
  have hmem : mkClientArgs 30 none ∈
      (scrape_url_run "http://c" (fun _ => RawOutcome.timeout) (fun _ => 0)
        [] (fun _ => 0) 30 1).2 := by decide
  ⟨hmem,
    client_args_shape "http://c" (fun _ => RawOutcome.timeout) (fun _ => 0)
      [] (fun _ => 0) 30 1 (mkClientArgs 30 none) hmem⟩

/-- Witness for C10: with budget 3 and all attempts timing out, the loop
returns from within and performs between 1 and 3 attempts. -/
theorem retry_loop_always_returns_witness :
    (1 : Nat) ≤ 3 ∧
    (scrape_url "http://u" (fun _ => RawOutcome.timeout) (fun _ => 1) []
      (fun _ => 0) 30 3).error ≠ some .unknownRetryFailure ∧
    1 ≤ (scrape_url_run "http://u" (fun _ => RawOutcome.timeout)
      (fun _ => 1) [] (fun _ => 0) 30 3).2.length ∧
    (scrape_url_run "http://u" (fun _ => RawOutcome.timeout) (fun _ => 1) []
      (fun _ => 0) 30 3).2.length ≤ 3 :=
  ⟨by decide,
    retry_loop_always_returns "http://u" (fun _ => RawOutcome.timeout)
      (fun _ => 1) [] (fun _ => 0) 30 3 (by decide)⟩

end FastScraper
